import Mathlib

/-!
# A verification model of the district Wi-Fi monitoring server

Shallow embedding of the Node.js application of this repository:
`app.js` (the unified Express + WebSocket server) and `database.js`
(the SQLite access layer, class `Database`).

Modelling conventions:
* JavaScript numbers are modelled as exact integers (`ℤ`) where the code
  keeps them integral, and as exact rationals (`ℚ`) where the code works
  with fractions (`Math.random()` values, division); IEEE-754 double
  rounding is not modelled.
* Timestamps (`created_at`, `last_login`, `last_ping`, `lastUpdated`,
  `CURRENT_TIMESTAMP`) are not modelled: no claim depends on wall-clock
  values.
* `Math.random()` is modelled as reading successive values from a stream
  of rationals; each call consumes exactly one draw and advances a cursor.
* `bcrypt.hash`/`bcrypt.hashSync` are modelled as an ideal hash: the
  constructor `StoredPassword.hashed` tags the plaintext it was derived
  from, and `bcrypt.compareSync` succeeds exactly on the matching tag.
  A clear-text column value would be `StoredPassword.plain`.
* SQLite tables are lists of row structures; `UNIQUE` constraints are
  enforced by the insert operations, mirroring `createTables`.
-/

namespace WifiMonitor

/-- JavaScript `Math.floor` on an exact rational. -/
def jsFloor (q : ℚ) : ℤ := ⌊q⌋

/-- JavaScript `Math.round` on an exact rational: round half toward `+∞`,
which is `⌊q + 1/2⌋`. -/
def jsRound (q : ℚ) : ℤ := ⌊q + 1/2⌋

/-- The whitespace characters relevant to `String.prototype.trim` for the
inputs this server handles. -/
def jsWhitespace (c : Char) : Bool :=
  c = ' ' || c = '\t' || c = '\n' || c = '\r'

/-- JavaScript `String.prototype.trim`: drop leading and trailing
whitespace. -/
def jsTrim (s : String) : String :=
  String.mk (((s.toList.dropWhile jsWhitespace).reverse.dropWhile jsWhitespace).reverse)

/-- JavaScript `String.prototype.toLowerCase` (ASCII case is all this
application uses). -/
def jsToLower (s : String) : String :=
  String.mk (s.toList.map Char.toLower)

/-- The sanitisation `x.trim().replace(/[<>"'&]/g, '')` that `app.js`
applies to usernames and full names before using them. -/
def sanitizeName (s : String) : String :=
  String.mk ((jsTrim s).toList.filter
    (fun c => !(c = '<' || c = '>' || c = '"' || c = '\'' || c = '&')))

/-- The sanitisation `email.trim().toLowerCase()` applied to emails. -/
def sanitizeEmail (s : String) : String := jsToLower (jsTrim s)

/-! ## The bcrypt model -/

/-- A value stored in a `password` column.  `hashed p` is the output of
`bcrypt.hash(p, 10)`; `plain p` would be the clear-text password `p`
stored as-is (no code path of this repository produces it). -/
inductive StoredPassword where
  | hashed (plain : String)
  | plain (p : String)
deriving DecidableEq, Repr

/-- `bcrypt.hash(password, 10)` / `bcrypt.hashSync(password, 10)`. -/
def bcryptHash (password : String) : StoredPassword := .hashed password

/-- `bcrypt.compareSync(password, stored)`: true exactly when `stored` is
the bcrypt hash of `password`. -/
def bcryptCompare (password : String) (stored : StoredPassword) : Bool :=
  stored == StoredPassword.hashed password

/-! ## The account tables (`database.js`, `createTables`)

`users.db` table `users`:
`id, fullname, email UNIQUE, username UNIQUE, role, password, created_at,
is_active (default 1), last_login`.

`admins.db` table `admins`: the same columns plus
`department, gov_id UNIQUE, registration_id, status (default 'active')`.
-/

structure UserRow where
  id : ℕ
  fullname : String
  email : String
  username : String
  role : String
  password : StoredPassword
  is_active : Bool
deriving DecidableEq, Repr

structure AdminRow where
  id : ℕ
  fullname : String
  email : String
  username : String
  role : String
  password : StoredPassword
  department : Option String
  gov_id : Option String
  registration_id : Option String
  status : String
  is_active : Bool
deriving DecidableEq, Repr

/-- The state of the two account databases (`users.db` and `admins.db`). -/
structure DbState where
  users : List UserRow
  admins : List AdminRow
deriving DecidableEq, Repr

/-- The row id `AUTOINCREMENT` assigns to the next insert (`this.lastID`). -/
def nextRowId (ids : List ℕ) : ℕ := ids.foldl max 0 + 1

/-- A security-event row of `devices.db` table `security_events`, as
inserted by `createSecurityEvent` (resolution columns keep their
defaults on insert). -/
structure SecurityEventData where
  event_type : String
  severity : String
  device_id : Option ℕ
  mac_address : Option String
  ip_address : String
  description : String
deriving DecidableEq, Repr

/-- `database.createSecurityEvent`: `INSERT INTO security_events ...`;
resolves `{ id: this.lastID }`. -/
def createSecurityEvent (events : List SecurityEventData) (e : SecurityEventData) :
    List SecurityEventData × ℕ :=
  (events ++ [e], events.length + 1)

/-- The argument object of `database.createUser`. -/
structure UserData where
  fullname : String
  email : String
  username : String
  role : String
  password : String
deriving DecidableEq, Repr

/-- `database.createUser(userData, userType = 'user')`: hash the password
with `bcrypt.hashSync(·, 10)`, then
`INSERT INTO users|admins (fullname, email, username, role, password)`
with `role = userData.role || userType`.  The `UNIQUE` constraints on
`email` and `username` reject a duplicate insert with a SQLite error. -/
def createUser (st : DbState) (userData : UserData) (userType : String) :
    Except String (DbState × ℕ) :=
  let hashedPassword := bcryptHash userData.password
  let role := if userData.role = "" then userType else userData.role
  if userType = "admin" then
    if st.admins.any (fun r => r.email == userData.email || r.username == userData.username) then
      Except.error "UNIQUE constraint failed: admins"
    else
      let id := nextRowId (st.admins.map (fun r => r.id))
      let row : AdminRow :=
        { id := id, fullname := userData.fullname, email := userData.email,
          username := userData.username, role := role, password := hashedPassword,
          department := none, gov_id := none, registration_id := none,
          status := "active", is_active := true }
      Except.ok ({ st with admins := st.admins ++ [row] }, id)
  else
    if st.users.any (fun r => r.email == userData.email || r.username == userData.username) then
      Except.error "UNIQUE constraint failed: users"
    else
      let id := nextRowId (st.users.map (fun r => r.id))
      let row : UserRow :=
        { id := id, fullname := userData.fullname, email := userData.email,
          username := userData.username, role := role, password := hashedPassword,
          is_active := true }
      Except.ok ({ st with users := st.users ++ [row] }, id)

/-- The argument object of `database.createAdmin` (as built by the
`/api/auth/admin-register` route). -/
structure AdminData where
  fullname : String
  email : String
  username : String
  role : String
  password : String
  department : String
  govId : String
  registrationId : String
  status : String
  isActive : Bool
deriving DecidableEq, Repr

/-- `database.createAdmin(adminData)`: hash the password with
`bcrypt.hash(·, 10)`, then insert the full admin row with
`status = status || 'pending_verification'` and `is_active = isActive`.
`email`, `username` and `gov_id` are `UNIQUE` in the `admins` table. -/
def createAdmin (st : DbState) (a : AdminData) : Except String (DbState × ℕ) :=
  let hashedPassword := bcryptHash a.password
  if st.admins.any (fun r =>
      r.email == a.email || r.username == a.username || r.gov_id == some a.govId) then
    Except.error "UNIQUE constraint failed: admins"
  else
    let id := nextRowId (st.admins.map (fun r => r.id))
    let row : AdminRow :=
      { id := id, fullname := a.fullname, email := a.email, username := a.username,
        role := a.role, password := hashedPassword, department := some a.department,
        gov_id := some a.govId, registration_id := some a.registrationId,
        status := (if a.status = "" then "pending_verification" else a.status),
        is_active := a.isActive }
    Except.ok ({ st with admins := st.admins ++ [row] }, id)

/-- The default admin account seeded by `seedInitialData`:
`INSERT OR IGNORE INTO admins ... VALUES ('System Administrator',
'admin@wifi-monitor.com', 'admin', 'admin', bcrypt.hashSync('admin123', 10))`. -/
def seededAdminRow : AdminRow :=
  { id := 1, fullname := "System Administrator", email := "admin@wifi-monitor.com",
    username := "admin", role := "admin", password := bcryptHash "admin123",
    department := none, gov_id := none, registration_id := none,
    status := "active", is_active := true }

/-- The projection of an account row that `authenticateUser` resolves
(enough of `SELECT *` for the login route's use of the row). -/
structure AuthAccount where
  id : ℕ
  fullname : String
  username : String
  role : String
  status : Option String
deriving DecidableEq, Repr

/-- `database.authenticateUser(username, password, userType = 'user')`:
`SELECT * FROM admins WHERE username = ? AND (is_active = 1 OR status =
'pending_verification')` for `userType === 'admin'`, else
`SELECT * FROM users WHERE username = ? AND is_active = 1`; then
`bcrypt.compareSync(password, row.password)`.  (The `last_login` update on
success is a timestamp write, not modelled.) -/
def authenticateUser (st : DbState) (username password userType : String) :
    Option AuthAccount :=
  if userType = "admin" then
    match st.admins.find? (fun r =>
        r.username == username && (r.is_active || r.status == "pending_verification")) with
    | some row =>
        if bcryptCompare password row.password then
          some ⟨row.id, row.fullname, row.username, row.role, some row.status⟩
        else none
    | none => none
  else
    match st.users.find? (fun r => r.username == username && r.is_active) with
    | some row =>
        if bcryptCompare password row.password then
          some ⟨row.id, row.fullname, row.username, row.role, none⟩
        else none
    | none => none

/-- The update object passed to `database.updateUser` (the callers pass
subsets of these account columns; vacant options are columns the caller's
object does not mention). -/
structure AccountUpdates where
  fullname : Option String := none
  email : Option String := none
  username : Option String := none
  role : Option String := none
  status : Option String := none
  is_active : Option Bool := none
deriving DecidableEq, Repr

/-- `UPDATE users SET <fields> WHERE id = ?` applied to one row. -/
def applyUserUpdates (u : AccountUpdates) (r : UserRow) : UserRow :=
  { r with
    fullname := u.fullname.getD r.fullname,
    email := u.email.getD r.email,
    username := u.username.getD r.username,
    role := u.role.getD r.role,
    is_active := u.is_active.getD r.is_active }

/-- `UPDATE admins SET <fields> WHERE id = ?` applied to one row. -/
def applyAdminUpdates (u : AccountUpdates) (r : AdminRow) : AdminRow :=
  { r with
    fullname := u.fullname.getD r.fullname,
    email := u.email.getD r.email,
    username := u.username.getD r.username,
    role := u.role.getD r.role,
    status := u.status.getD r.status,
    is_active := u.is_active.getD r.is_active }

/-- `database.updateUser(userId, updates, userType = 'user')`:
`UPDATE users|admins SET <fields> WHERE id = ?`; resolves
`{ changes: this.changes }`.  Rows are rewritten in place; no row is
added or removed. -/
def updateUser (st : DbState) (userId : ℕ) (updates : AccountUpdates)
    (userType : String) : DbState × ℕ :=
  if userType = "admin" then
    let rows := st.admins.map (fun r => if r.id = userId then applyAdminUpdates updates r else r)
    ({ st with admins := rows }, (st.admins.filter (fun r => r.id == userId)).length)
  else
    let rows := st.users.map (fun r => if r.id = userId then applyUserUpdates updates r else r)
    ({ st with users := rows }, (st.users.filter (fun r => r.id == userId)).length)

/-- `database.updateAdmin(userId, updates)`, an alias for
`updateUser(userId, updates, 'admin')`. -/
def updateAdmin (st : DbState) (userId : ℕ) (updates : AccountUpdates) : DbState × ℕ :=
  updateUser st userId updates "admin"

/-- `database.deleteUser(userId, userType = 'user')`:
`DELETE FROM users|admins WHERE id = ?`; resolves
`{ changes: this.changes }`.  The matching row is removed outright. -/
def deleteUser (st : DbState) (userId : ℕ) (userType : String) : DbState × ℕ :=
  if userType = "admin" then
    ({ st with admins := st.admins.filter (fun r => !(r.id == userId)) },
     (st.admins.filter (fun r => r.id == userId)).length)
  else
    ({ st with users := st.users.filter (fun r => !(r.id == userId)) },
     (st.users.filter (fun r => r.id == userId)).length)

/-! ## Express routes and middleware (`app.js`) -/

/-- The part of `req.session` the route guards consult. -/
structure Session where
  userId : Option ℕ
  userRole : Option String
deriving DecidableEq, Repr

/-- How a route answers a request. -/
inductive HttpResponse where
  | render (view : String)
  | redirect (location : String)
  | send (status : ℕ) (body : String)
deriving DecidableEq, Repr

/-- An Express middleware: either short-circuits with a response or
passes the request on (`next()`). -/
def Middleware : Type := Session → Option HttpResponse

/-- `requireAuth` (app.js 317-323): pass when `req.session.userId` is
set, else `res.redirect('/login')`. -/
def requireAuth : Middleware := fun s =>
  if s.userId.isSome then none else some (.redirect "/login")

/-- `requireRole(role)` (app.js 326-334): pass when
`req.session.userRole === role`, else `res.status(403).send('Access denied')`. -/
def requireRole (role : String) : Middleware := fun s =>
  if s.userRole = some role then none else some (.send 403 "Access denied")

/-- Run a route's middleware chain, then its handler. -/
def runRoute (mws : List Middleware) (handler : Session → HttpResponse)
    (s : Session) : HttpResponse :=
  match mws with
  | [] => handler s
  | mw :: rest =>
    match mw s with
    | some resp => resp
    | none => runRoute rest handler s

/-- `app.get('/dashboard', (req, res) => res.render('dashboard', ...))`
(app.js 624-626).  As registered, the route has NO middleware attached. -/
def getDashboard (s : Session) : HttpResponse :=
  runRoute [] (fun _ => .render "dashboard") s

/-- `app.get('/admin', (req, res) => res.render('admin', ...))`
(app.js 628-630).  As registered, the route has NO middleware attached. -/
def getAdmin (s : Session) : HttpResponse :=
  runRoute [] (fun _ => .render "admin") s

/-- `app.get('/viewer', (req, res) => res.render('viewer', ...))`
(app.js 632-634).  As registered, the route has NO middleware attached. -/
def getViewer (s : Session) : HttpResponse :=
  runRoute [] (fun _ => .render "viewer") s

/-! ## The login route (`POST /auth/login`, app.js 352-438) -/

/-- The request body of `/auth/login` (absent JSON fields are `none`;
`loginType` defaults to `'user'`), plus `req.ip` and the session's
failed-attempt counter. -/
structure LoginRequest where
  username : Option String := none
  password : Option String := none
  loginType : String := "user"
  ip : String := ""
  loginAttempts : ℕ := 0
deriving DecidableEq, Repr

/-- The session fields the login route sets on success. -/
structure SessionData where
  userId : ℕ
  userRole : String
  username : String
  loginType : String
deriving DecidableEq, Repr

/-- The observable outcome of one `/auth/login` request: HTTP status,
security events inserted by `createSecurityEvent` while handling it,
the session established (if any) and the redirect returned. -/
structure LoginOutcome where
  status : ℕ
  events : List SecurityEventData
  session : Option SessionData
  redirect : Option String
deriving DecidableEq, Repr

/-- The `/auth/login` handler.  `dbError` models a database-layer failure
inside the `try` block (a rejected promise), which the `catch` answers
with status 500 ('Login failed').  A JSON field that is missing or the
empty string is falsy, hence 400.  When `authenticateUser` yields no
account the handler records a `failed_login` security event naming the
sanitised username and answers 401; a pending-verification admin is
answered 403; otherwise the session is set, a `suspicious_login` event is
recorded when more than 3 failed attempts preceded, and the reply
redirects by role. -/
def loginHandler (st : DbState) (req : LoginRequest) (dbError : Bool) : LoginOutcome :=
  if req.username.getD "" = "" ∨ req.password.getD "" = "" then
    ⟨400, [], none, none⟩
  else
    let sanitizedUsername := sanitizeName (req.username.getD "")
    if dbError then
      ⟨500, [], none, none⟩
    else
      match authenticateUser st sanitizedUsername (req.password.getD "") req.loginType with
      | some user =>
        if user.role = "admin" ∧ user.status = some "pending_verification" then
          ⟨403, [], none, none⟩
        else
          let events :=
            if req.loginAttempts > 3 then
              [⟨"suspicious_login", "medium", none, none, req.ip,
                "Multiple failed login attempts before successful login for user: "
                  ++ sanitizedUsername⟩]
            else []
          let redirectUrl :=
            if user.role = "admin" then "/admin"
            else if user.role = "viewer" then "/viewer"
            else "/dashboard"
          ⟨200, events, some ⟨user.id, user.role, user.username, req.loginType⟩,
           some redirectUrl⟩
      | none =>
        ⟨401,
         [⟨"failed_login", "low", none, none, req.ip,
           "Failed login attempt for user: " ++ sanitizedUsername⟩],
         none, none⟩

/-! ## The registration route (`POST /auth/register`, app.js 440-488) -/

/-- The request body of `/auth/register` (`userType` defaults to `'user'`). -/
structure RegisterRequest where
  fullname : Option String := none
  email : Option String := none
  username : Option String := none
  role : Option String := none
  password : Option String := none
  userType : String := "user"
deriving DecidableEq, Repr

/-- The observable outcome of one `/auth/register` request: HTTP status,
the error message (if any) and the database state afterwards. -/
structure RegisterOutcome where
  status : ℕ
  error : Option String
  db : DbState
deriving DecidableEq, Repr

/-- The user-lookup method `database.getUserByUsername` that
`app.js`'s registration routes call.  The `Database` class of
`database.js` defines no method of that name (its account API is
`createAdmin/getAdminByGovId/createUser/authenticateUser/getAllUsers/
getAdminById/getPendingAdmins/updateAdmin/updateUser/deleteUser/...`), so
the property access yields `undefined` and the call throws a `TypeError`:
the method is `none`. -/
def databaseGetUserByUsername : Option (DbState → String → Option UserRow) := none

/-- The user-lookup method `database.getUserByEmail` called by the same
routes; also not defined by the `Database` class of `database.js`. -/
def databaseGetUserByEmail : Option (DbState → String → Option UserRow) := none

/-- The `/auth/register` handler.  After the 400 check it calls
`database.getUserByUsername(...)` inside the `try`; when the method does
not exist the thrown `TypeError` is caught and answered 500
('Registration failed').  The remaining branches transcribe the
handler's code as written: 409 for a duplicate username or email, else
`createUser` (note `userType` travels inside the data object, so
`createUser`'s second parameter keeps its default `'user'`) and 201. -/
def registerHandler (st : DbState) (req : RegisterRequest) : RegisterOutcome :=
  if req.fullname.getD "" = "" ∨ req.email.getD "" = "" ∨ req.username.getD "" = ""
      ∨ req.role.getD "" = "" ∨ req.password.getD "" = "" then
    ⟨400, some "All fields are required", st⟩
  else
    let sanitizedFullname := sanitizeName (req.fullname.getD "")
    let sanitizedEmail := sanitizeEmail (req.email.getD "")
    let sanitizedUsername := sanitizeName (req.username.getD "")
    match databaseGetUserByUsername with
    | none => ⟨500, some "Registration failed", st⟩
    | some getUserByUsername =>
      if (getUserByUsername st sanitizedUsername).isSome then
        ⟨409, some "Username already exists", st⟩
      else
        match databaseGetUserByEmail with
        | none => ⟨500, some "Registration failed", st⟩
        | some getUserByEmail =>
          if (getUserByEmail st sanitizedEmail).isSome then
            ⟨409, some "Email already registered", st⟩
          else
            match createUser st
                ⟨sanitizedFullname, sanitizedEmail, sanitizedUsername,
                 req.role.getD "", req.password.getD ""⟩ "user" with
            | Except.ok (st', _) => ⟨201, none, st'⟩
            | Except.error _ => ⟨500, some "Registration failed", st⟩

/-! ## Districts and the in-memory data store (`app.js`) -/

/-- A row of the `districts` table / an element of `wifiData.districts`. -/
structure District where
  id : ℤ
  name : String
  total_hotspots : ℤ
  active_hotspots : ℤ
  utilization : ℤ
  status : String
deriving DecidableEq, Repr

/-- The global in-memory store `wifiData` (app.js 95-102). -/
structure WifiData where
  totalHotspots : ℤ
  activeHotspots : ℤ
  utilization : ℤ
  criticalDistricts : ℤ
  districts : List District
deriving DecidableEq, Repr

/-- `wifiData.districts.reduce((sum, district) => sum + district.total_hotspots, 0)`. -/
def sumTotalHotspots (ds : List District) : ℤ :=
  ds.foldl (fun sum d => sum + d.total_hotspots) 0

/-- `wifiData.districts.reduce((sum, district) => sum + district.active_hotspots, 0)`. -/
def sumActiveHotspots (ds : List District) : ℤ :=
  ds.foldl (fun sum d => sum + d.active_hotspots) 0

/-- `updateMetricsFromDistricts` (app.js 117-128): recompute the top-level
metrics from the district rows; utilization is
`totalHotspots > 0 ? Math.round((activeHotspots / totalHotspots) * 100) : 0`
and `criticalDistricts` counts the rows with status `'critical'`. -/
def updateMetricsFromDistricts (w : WifiData) : WifiData :=
  let totalHotspots := sumTotalHotspots w.districts
  let activeHotspots := sumActiveHotspots w.districts
  let utilization :=
    if 0 < totalHotspots then
      jsRound (((activeHotspots : ℚ) / (totalHotspots : ℚ)) * 100)
    else 0
  let criticalDistricts :=
    ((w.districts.filter (fun d => d.status = "critical")).length : ℤ)
  { w with totalHotspots := totalHotspots, activeHotspots := activeHotspots,
           utilization := utilization, criticalDistricts := criticalDistricts }

/-! ## `Math.random()` as a stream of draws -/

/-- The source of `Math.random()` values: a stream of rationals in
`[0, 1)` and a cursor marking the next unconsumed draw. -/
structure RandState where
  draws : ℕ → ℚ
  cursor : ℕ

/-- A computation that consumes draws from the random stream. -/
def RandM (α : Type) : Type := RandState → α × RandState

instance : Monad RandM where
  pure a := fun st => (a, st)
  bind m f := fun st => let p := m st; f p.1 p.2

/-- One call of `Math.random()`: read the draw at the cursor and advance
the cursor by one. -/
def mathRandom : RandM ℚ := fun st => (st.draws st.cursor, ⟨st.draws, st.cursor + 1⟩)

/-- The status perturbation of the simulation loop (app.js 147-154):
with `rand < 0.05` flip critical/warning-or-critical, else with
`rand < 0.1` flip normal/warning-or-normal, else keep the status. -/
def nextStatus (status : String) (rand : ℚ) : String :=
  if rand < 0.05 then
    (if status = "critical" then "warning" else "critical")
  else if rand < 0.1 then
    (if status = "normal" then "warning" else "normal")
  else status

/-- The body of the `for (let district of wifiData.districts)` loop of
`simulateRealTimeData` (app.js 141-168) for one district row: clamp
`active_hotspots + (Math.floor(Math.random()*20) - 10)` to
`[0, total_hotspots]`, clamp `utilization + (Math.floor(Math.random()*8) - 4)`
to `[0, 100]`, and draw once more for the status change.  Each
`Math.random()` call consumes one draw, in source order.  (The
`updateDistrict` persistence write stores the same values; `last_ping`
is a timestamp, not modelled.) -/
def districtSimUpdate (d : District) : RandM District := do
  let r1 ← mathRandom
  let newActiveHotspots :=
    max 0 (min d.total_hotspots (d.active_hotspots + (jsFloor (r1 * 20) - 10)))
  let r2 ← mathRandom
  let newUtilization :=
    max 0 (min 100 (d.utilization + (jsFloor (r2 * 8) - 4)))
  let rand ← mathRandom
  let newStatus := nextStatus d.status rand
  pure { d with active_hotspots := newActiveHotspots,
                utilization := newUtilization, status := newStatus }

/-- The `for`-loop over the district rows in the executions in which
every `await database.updateDistrict(...)` resolves: each row is updated
in order. -/
def districtsSimUpdate : List District → RandM (List District)
  | [] => pure []
  | d :: ds => do
    let d' ← districtSimUpdate d
    let ds' ← districtsSimUpdate ds
    pure (d' :: ds')

/-- The outcome of the database writes of one tick of
`simulateRealTimeData`: whether the k-th `updateDistrict` call of the
loop rejects, and whether the final `saveMetrics` call rejects. -/
structure DbWriteOutcomes where
  updateDistrictFails : ℕ → Bool
  saveMetricsFails : Bool

/-- The `for`-loop of `simulateRealTimeData` with its `await
database.updateDistrict(...)` writes.  The three draws for a district
are consumed before the write; when the write for the k-th row rejects,
the thrown error propagates out of the loop (completion flag `false`):
the in-memory assignments after the `await` are skipped, so that row and
all later rows keep their old values and consume no further draws.  When
every write resolves the flag is `true`. -/
def districtsSimUpdateWithDb (fails : ℕ → Bool) : ℕ → List District → RandM (List District × Bool)
  | _, [] => pure ([], true)
  | k, d :: ds => do
    let d' ← districtSimUpdate d
    if fails k then
      pure (d :: ds, false)
    else do
      let p ← districtsSimUpdateWithDb fails (k + 1) ds
      pure (d' :: p.1, p.2)

/-! ## JSON values and the WebSocket messages -/

/-- A JSON value, for the messages the server serialises with
`JSON.stringify`. -/
inductive Json where
  | str (s : String)
  | num (q : ℚ)
  | bool (b : Bool)
  | null
  | arr (elements : List Json)
  | obj (fields : List (String × Json))

/-- JavaScript property access `o.k` on a parsed JSON object. -/
def lookupField : List (String × Json) → String → Option Json
  | [], _ => none
  | (k, v) :: rest, key => if k = key then some v else lookupField rest key

/-- Serialisation of a district row. -/
def districtJson (d : District) : Json :=
  .obj [("id", .num (d.id : ℚ)), ("name", .str d.name),
        ("total_hotspots", .num (d.total_hotspots : ℚ)),
        ("active_hotspots", .num (d.active_hotspots : ℚ)),
        ("utilization", .num (d.utilization : ℚ)),
        ("status", .str d.status)]

/-- A sample hotspot record built by `generateSampleHotspots`. -/
structure Hotspot where
  id : ℤ
  name : String
  lat : ℚ
  lng : ℚ
  status : String
  connections : ℤ
  utilization : ℤ
  address : String

/-- Serialisation of a sample hotspot. -/
def hotspotJson (h : Hotspot) : Json :=
  .obj [("id", .num (h.id : ℚ)), ("name", .str h.name), ("lat", .num h.lat),
        ("lng", .num h.lng), ("status", .str h.status),
        ("connections", .num (h.connections : ℚ)),
        ("utilization", .num (h.utilization : ℚ)), ("address", .str h.address)]

/-- `generateSampleHotspots` (app.js 255-308): five hotspot records whose
fields are built left to right, each `Math.random()` consuming one draw. -/
def generateSampleHotspots : RandM (List Hotspot) := do
  let c1 ← mathRandom
  let u1 ← mathRandom
  let h1 : Hotspot :=
    { id := 1, name := "Times Square Hotspot", lat := 40.7580, lng := -73.9855,
      status := "online", connections := jsFloor (c1 * 50) + 20,
      utilization := jsFloor (u1 * 30) + 60, address := "Times Square, NYC" }
  let c2 ← mathRandom
  let u2 ← mathRandom
  let h2 : Hotspot :=
    { id := 2, name := "Central Park WiFi", lat := 40.7829, lng := -73.9654,
      status := "online", connections := jsFloor (c2 * 40) + 15,
      utilization := jsFloor (u2 * 25) + 55, address := "Central Park, NYC" }
  let s3 ← mathRandom
  let c3 ← mathRandom
  let u3 ← mathRandom
  let h3 : Hotspot :=
    { id := 3, name := "Brooklyn Bridge Hotspot", lat := 40.7061, lng := -73.9969,
      status := (if (0.3 : ℚ) < s3 then "warning" else "online"),
      connections := jsFloor (c3 * 60) + 30,
      utilization := jsFloor (u3 * 20) + 70, address := "Brooklyn Bridge, NYC" }
  let s4 ← mathRandom
  let c4 ← mathRandom
  let u4cond ← mathRandom
  let u4 ←
    if (0.8 : ℚ) < u4cond then pure (0 : ℤ)
    else do
      let r ← mathRandom
      pure (jsFloor (r * 15) + 40)
  let h4 : Hotspot :=
    { id := 4, name := "Wall Street Zone", lat := 40.7074, lng := -74.0113,
      status := (if (0.8 : ℚ) < s4 then "offline" else "online"),
      connections := jsFloor (c4 * 10), utilization := u4,
      address := "Wall Street, NYC" }
  let c5 ← mathRandom
  let u5 ← mathRandom
  let h5 : Hotspot :=
    { id := 5, name := "Union Square Hub", lat := 40.7359, lng := -73.9911,
      status := "online", connections := jsFloor (c5 * 45) + 25,
      utilization := jsFloor (u5 * 35) + 50, address := "Union Square, NYC" }
  pure [h1, h2, h3, h4, h5]

/-- The message `broadcastUpdate` serialises (app.js 190-200). -/
def dataUpdateMessage (w : WifiData) : Json :=
  .obj [("type", .str "data_update"),
        ("data", .obj [("districts", .arr (w.districts.map districtJson)),
                       ("totalHotspots", .num (w.totalHotspots : ℚ)),
                       ("activeHotspots", .num (w.activeHotspots : ℚ)),
                       ("utilization", .num (w.utilization : ℚ)),
                       ("criticalDistricts", .num (w.criticalDistricts : ℚ))])]

/-- The reply to a client `request_update` (app.js 230-238): like the
broadcast but without `criticalDistricts`. -/
def requestUpdateReplyMessage (w : WifiData) : Json :=
  .obj [("type", .str "data_update"),
        ("data", .obj [("districts", .arr (w.districts.map districtJson)),
                       ("totalHotspots", .num (w.totalHotspots : ℚ)),
                       ("activeHotspots", .num (w.activeHotspots : ℚ)),
                       ("utilization", .num (w.utilization : ℚ))])]

/-- The message sent immediately on a new connection (app.js 214-223). -/
def initialDataMessage (w : WifiData) (hotspots : List Hotspot) : Json :=
  .obj [("type", .str "initial_data"),
        ("data", .obj [("hotspots", .arr (hotspots.map hotspotJson)),
                       ("districts", .arr (w.districts.map districtJson)),
                       ("totalHotspots", .num (w.totalHotspots : ℚ)),
                       ("activeHotspots", .num (w.activeHotspots : ℚ)),
                       ("utilization", .num (w.utilization : ℚ))])]

/-- The readyState of a WebSocket connection. -/
inductive ReadyState where
  | CONNECTING
  | OPEN
  | CLOSING
  | CLOSED
deriving DecidableEq, Repr

/-- A client connection in `wss.clients`. -/
structure Client where
  id : ℕ
  readyState : ReadyState
deriving DecidableEq, Repr

/-- `broadcastUpdate` (app.js 190-207): send the `data_update` message to
every client whose `readyState` is `OPEN`. -/
def broadcastUpdate (w : WifiData) (clients : List Client) : List (Client × Json) :=
  (clients.filter (fun c => c.readyState = ReadyState.OPEN)).map
    (fun c => (c, dataUpdateMessage w))

/-- A row of the `wifi_metrics` history table, as written by
`database.saveMetrics`. -/
structure WifiMetricsRow where
  total_hotspots : ℤ
  active_hotspots : ℤ
  utilization : ℤ
  critical_districts : ℤ
deriving DecidableEq, Repr

/-- `simulateRealTimeData` (app.js 131-187), the timer tick, with its
`try/catch`.  Three global draws perturb the top-level metrics
(synchronously, so they persist even when a later write rejects); the
district loop updates every row unless one of its `updateDistrict`
writes rejects, in which case the thrown error reaches the `catch`
(which only logs): the tick then ends with the remaining rows
un-updated, no aggregate recompute, no metrics row and no broadcast.
When the loop completes, `updateMetricsFromDistricts` recomputes the
aggregates and `saveMetrics` persists a metrics row; if that write
rejects the broadcast is skipped too, else `broadcastUpdate` sends the
new data to every open client.  Returns the store afterwards, the
metrics row saved (if any) and the list of (client, message) sends. -/
def simulateRealTimeData (w : WifiData) (clients : List Client) (dbw : DbWriteOutcomes) :
    RandM (WifiData × Option WifiMetricsRow × List (Client × Json)) := do
  let r1 ← mathRandom
  let r2 ← mathRandom
  let r3 ← mathRandom
  let w1 : WifiData :=
    { w with
      totalHotspots := w.totalHotspots + (jsFloor (r1 * 20) - 10),
      activeHotspots := w.activeHotspots + (jsFloor (r2 * 30) - 15),
      utilization := max 0 (min 100 (w.utilization + (jsFloor (r3 * 6) - 3))) }
  let p ← districtsSimUpdateWithDb dbw.updateDistrictFails 0 w.districts
  pure
    (if p.2 then
      (let w2 := updateMetricsFromDistricts { w1 with districts := p.1 }
       if dbw.saveMetricsFails then (w2, none, [])
       else (w2,
         some ⟨w2.totalHotspots, w2.activeHotspots, w2.utilization, w2.criticalDistricts⟩,
         broadcastUpdate w2 clients))
    else ({ w1 with districts := p.1 }, none, []))

/-- The sends of the `wss.on('connection', ...)` handler (app.js 210-223):
exactly one message, built and sent immediately. -/
def wsConnectionSends (w : WifiData) : RandM (List Json) := do
  let hotspots ← generateSampleHotspots
  pure [initialDataMessage w hotspots]

/-- The sends of the `ws.on('message', ...)` handler (app.js 225-243):
reply with the (criticalDistricts-less) `data_update` when the parsed
message is an object with `type === 'request_update'`; otherwise (other
types, non-objects, or a parse error, modelled as `none`) send nothing. -/
def wsMessageHandlerSends (w : WifiData) (incoming : Option Json) : List Json :=
  match incoming with
  | some (Json.obj fields) =>
    match lookupField fields "type" with
    | some (Json.str t) =>
      if t = "request_update" then [requestUpdateReplyMessage w] else []
    | _ => []
  | _ => []

/-- The three places `app.js` sends a WebSocket message: the connection
handler (line 214), the reply to a client `request_update` (line 230)
and `broadcastUpdate` (line 204). -/
inductive SendSite where
  | onConnection (w : WifiData) (hotspots : List Hotspot)
  | requestUpdateReply (w : WifiData)
  | broadcast (w : WifiData)

/-- The message serialised at each send site. -/
def sentMessage : SendSite → Json
  | .onConnection w hotspots => initialDataMessage w hotspots
  | .requestUpdateReply w => requestUpdateReplyMessage w
  | .broadcast w => dataUpdateMessage w

/-- The value of the `type` field at each send site. -/
def messageTypeOf : SendSite → String
  | .onConnection _ _ => "initial_data"
  | .requestUpdateReply _ => "data_update"
  | .broadcast _ => "data_update"

/-! ## Helper lemmas -/

theorem randM_bind_apply {α β : Type} (m : RandM α) (f : α → RandM β) (st : RandState) :
    (m >>= f) st = f (m st).1 (m st).2 := rfl

theorem randM_pure_apply {α : Type} (a : α) (st : RandState) :
    (pure a : RandM α) st = (a, st) := rfl

theorem districtSimUpdate_eq (d : District) (st : RandState) :
    districtSimUpdate d st =
      ({ d with
          active_hotspots := max 0 (min d.total_hotspots
            (d.active_hotspots + (jsFloor (st.draws st.cursor * 20) - 10))),
          utilization := max 0 (min 100
            (d.utilization + (jsFloor (st.draws (st.cursor + 1) * 8) - 4))),
          status := nextStatus d.status (st.draws (st.cursor + 2)) },
       ⟨st.draws, st.cursor + 3⟩) := rfl

theorem districtsSimUpdate_nil (st : RandState) :
    districtsSimUpdate [] st = ([], st) := rfl

theorem districtsSimUpdate_cons (d : District) (ds : List District) (st : RandState) :
    districtsSimUpdate (d :: ds) st =
      ((districtSimUpdate d st).1 :: (districtsSimUpdate ds (districtSimUpdate d st).2).1,
       (districtsSimUpdate ds (districtSimUpdate d st).2).2) := rfl

theorem jsFloor_mul_bounds (r c : ℚ) (z : ℤ) (h0 : 0 ≤ r) (h1 : r < 1)
    (hc : 0 < c) (hz : c ≤ (z : ℚ)) :
    0 ≤ jsFloor (r * c) ∧ jsFloor (r * c) < z := by
  constructor
  · exact Int.floor_nonneg.mpr (mul_nonneg h0 hc.le)
  · apply Int.floor_lt.mpr
    calc r * c < 1 * c := by exact mul_lt_mul_of_pos_right h1 hc
    _ = c := one_mul c
    _ ≤ (z : ℚ) := hz

theorem clamp_bounds (lo hi x : ℤ) (h : lo ≤ hi) :
    lo ≤ max lo (min hi x) ∧ max lo (min hi x) ≤ hi :=
  ⟨le_max_left lo (min hi x), max_le h (min_le_left hi x)⟩

/-- The identity-preserving, bounded-increment shape of one district's
simulation step. -/
def DistrictStep (d d' : District) : Prop :=
  d'.id = d.id ∧ d'.name = d.name ∧ d'.total_hotspots = d.total_hotspots ∧
  (∃ δ, -10 ≤ δ ∧ δ ≤ 9 ∧
    d'.active_hotspots = max 0 (min d.total_hotspots (d.active_hotspots + δ))) ∧
  (∃ δ, -4 ≤ δ ∧ δ ≤ 3 ∧
    d'.utilization = max 0 (min 100 (d.utilization + δ))) ∧
  (∃ r, d'.status = nextStatus d.status r)

/-- The clamped ranges of a district row after the step. -/
def DistrictInRange (d : District) : Prop :=
  0 ≤ d.active_hotspots ∧ d.active_hotspots ≤ d.total_hotspots ∧
  0 ≤ d.utilization ∧ d.utilization ≤ 100

theorem districtSimUpdate_step (d : District) (st : RandState)
    (hdraws : ∀ n, 0 ≤ st.draws n ∧ st.draws n < 1)
    (ht : 0 ≤ d.total_hotspots) :
    DistrictStep d (districtSimUpdate d st).1 ∧
      DistrictInRange (districtSimUpdate d st).1 := by
  have h20 := jsFloor_mul_bounds (st.draws st.cursor) 20 20
    (hdraws st.cursor).1 (hdraws st.cursor).2 (by norm_num) (by norm_num)
  have h8 := jsFloor_mul_bounds (st.draws (st.cursor + 1)) 8 8
    (hdraws (st.cursor + 1)).1 (hdraws (st.cursor + 1)).2 (by norm_num) (by norm_num)
  rw [districtSimUpdate_eq]
  constructor
  · refine ⟨rfl, rfl, rfl, ?_, ?_, ?_⟩
    · exact ⟨jsFloor (st.draws st.cursor * 20) - 10, by omega, by omega, rfl⟩
    · exact ⟨jsFloor (st.draws (st.cursor + 1) * 8) - 4, by omega, by omega, rfl⟩
    · exact ⟨st.draws (st.cursor + 2), rfl⟩
  · have ha := clamp_bounds 0 d.total_hotspots
      (d.active_hotspots + (jsFloor (st.draws st.cursor * 20) - 10)) ht
    have hu := clamp_bounds 0 100
      (d.utilization + (jsFloor (st.draws (st.cursor + 1) * 8) - 4)) (by norm_num)
    exact ⟨ha.1, ha.2, hu.1, hu.2⟩

theorem districtSimUpdate_state (d : District) (st : RandState) :
    (districtSimUpdate d st).2 = ⟨st.draws, st.cursor + 3⟩ := rfl

theorem districtsSimUpdate_spec (ds : List District) (st : RandState)
    (hdraws : ∀ n, 0 ≤ st.draws n ∧ st.draws n < 1)
    (ht : ∀ d ∈ ds, 0 ≤ d.total_hotspots) :
    List.Forall₂ (fun d d' => DistrictStep d d' ∧ DistrictInRange d')
      ds (districtsSimUpdate ds st).1 := by
  induction ds generalizing st with
  | nil => simp [districtsSimUpdate_nil]
  | cons d ds ih =>
    rw [districtsSimUpdate_cons]
    refine List.Forall₂.cons ?_ ?_
    · exact districtSimUpdate_step d st hdraws (ht d (List.mem_cons_self d ds))
    · have hdraws' : ∀ n, 0 ≤ (districtSimUpdate d st).2.draws n ∧
          (districtSimUpdate d st).2.draws n < 1 := by
        rw [districtSimUpdate_state]; exact hdraws
      exact ih (districtSimUpdate d st).2 hdraws'
        (fun x hx => ht x (List.mem_cons_of_mem d hx))

theorem updateMetricsFromDistricts_districts (w : WifiData) :
    (updateMetricsFromDistricts w).districts = w.districts := rfl

theorem districtsSimUpdateWithDb_cons (fails : ℕ → Bool) (k : ℕ) (d : District)
    (ds : List District) (st : RandState) :
    districtsSimUpdateWithDb fails k (d :: ds) st =
      (if fails k then ((d :: ds, false), (districtSimUpdate d st).2)
       else
        (((districtSimUpdate d st).1 ::
            (districtsSimUpdateWithDb fails (k + 1) ds (districtSimUpdate d st).2).1.1,
          (districtsSimUpdateWithDb fails (k + 1) ds (districtSimUpdate d st).2).1.2),
         (districtsSimUpdateWithDb fails (k + 1) ds (districtSimUpdate d st).2).2)) := by
  by_cases hk : fails k = true <;>
    simp [districtsSimUpdateWithDb, randM_bind_apply, randM_pure_apply, hk]

theorem districtsSimUpdateWithDb_all_ok (fails : ℕ → Bool) (h : ∀ i, fails i = false) :
    ∀ (ds : List District) (k : ℕ) (st : RandState),
      districtsSimUpdateWithDb fails k ds st =
        (((districtsSimUpdate ds st).1, true), (districtsSimUpdate ds st).2) := by
  intro ds
  induction ds with
  | nil => intro k st; rfl
  | cons d ds ih =>
    intro k st
    rw [districtsSimUpdateWithDb_cons, if_neg (by simp [h k]), ih (k + 1),
      districtsSimUpdate_cons]

theorem districtsSimUpdateWithDb_completed (fails : ℕ → Bool) :
    ∀ (ds : List District) (k : ℕ) (st : RandState),
      (districtsSimUpdateWithDb fails k ds st).1.2 = true →
      ∀ i, i < ds.length → fails (k + i) = false := by
  intro ds
  induction ds with
  | nil => intro k st _ i hi; simp at hi
  | cons d ds ih =>
    intro k st hc i hi
    rw [districtsSimUpdateWithDb_cons] at hc
    by_cases hk : fails k = true
    · rw [if_pos hk] at hc
      simp at hc
    · rw [if_neg hk] at hc
      match i with
      | 0 => simpa using hk
      | j + 1 =>
        have hj := ih (k + 1) (districtSimUpdate d st).2 hc j (by simpa using hi)
        rw [show k + (j + 1) = (k + 1) + j by omega]
        exact hj

theorem simulateRealTimeData_apply (w : WifiData) (clients : List Client)
    (dbw : DbWriteOutcomes) (st : RandState) :
    simulateRealTimeData w clients dbw st =
      ((if (districtsSimUpdateWithDb dbw.updateDistrictFails 0 w.districts
            ⟨st.draws, st.cursor + 3⟩).1.2 then
          (let w2 := updateMetricsFromDistricts
            { w with
              totalHotspots := w.totalHotspots + (jsFloor (st.draws st.cursor * 20) - 10),
              activeHotspots :=
                w.activeHotspots + (jsFloor (st.draws (st.cursor + 1) * 30) - 15),
              utilization := max 0 (min 100
                (w.utilization + (jsFloor (st.draws (st.cursor + 2) * 6) - 3))),
              districts := (districtsSimUpdateWithDb dbw.updateDistrictFails 0 w.districts
                ⟨st.draws, st.cursor + 3⟩).1.1 }
           if dbw.saveMetricsFails then (w2, none, [])
           else (w2,
             some ⟨w2.totalHotspots, w2.activeHotspots, w2.utilization, w2.criticalDistricts⟩,
             broadcastUpdate w2 clients))
        else
          ({ w with
             totalHotspots := w.totalHotspots + (jsFloor (st.draws st.cursor * 20) - 10),
             activeHotspots :=
               w.activeHotspots + (jsFloor (st.draws (st.cursor + 1) * 30) - 15),
             utilization := max 0 (min 100
               (w.utilization + (jsFloor (st.draws (st.cursor + 2) * 6) - 3))),
             districts := (districtsSimUpdateWithDb dbw.updateDistrictFails 0 w.districts
               ⟨st.draws, st.cursor + 3⟩).1.1 },
           none, [])),
       (districtsSimUpdateWithDb dbw.updateDistrictFails 0 w.districts
         ⟨st.draws, st.cursor + 3⟩).2) := rfl

/-! ## Claim theorems -/

/-- C1.  The claim reads: every GET of `/admin`, `/dashboard` or
`/viewer` is served only to a session authenticated with the matching
role, and denied otherwise.  The routes as registered in `app.js`
attach no middleware, so the pages are rendered for every request: an
unauthenticated session, and a session of the wrong role, are both
served the admin page.  The defined-but-unattached `requireAuth` /
`requireRole` middlewares would have denied them. -/
theorem role_pages_served_without_authentication :
    getDashboard ⟨none, none⟩ = HttpResponse.render "dashboard" ∧
    getAdmin ⟨none, none⟩ = HttpResponse.render "admin" ∧
    getViewer ⟨none, none⟩ = HttpResponse.render "viewer" ∧
    getAdmin ⟨some 7, some "viewer"⟩ = HttpResponse.render "admin" ∧
    requireAuth ⟨none, none⟩ = some (HttpResponse.redirect "/login") ∧
    requireRole "admin" ⟨none, none⟩ = some (HttpResponse.send 403 "Access denied") ∧
    requireRole "admin" ⟨some 7, some "viewer"⟩ =
      some (HttpResponse.send 403 "Access denied") := by
  refine ⟨rfl, rfl, rfl, rfl, rfl, ?_, ?_⟩ <;> decide

/-- C7 (amended).  One district's simulation step consumes exactly three
uniform draws: the cursor of the `Math.random()` stream advances by 3
and the stream itself is unchanged. -/
theorem district_update_consumes_three_draws (d : District) (st : RandState) :
    (districtSimUpdate d st).2.cursor = st.cursor + 3 ∧
    (districtSimUpdate d st).2.draws = st.draws := ⟨rfl, rfl⟩

/-- A concrete district row for refuting the four-draw count. -/
def districtC7 : District := ⟨1, "North District", 1200, 800, 64, "normal"⟩

/-- C7, counterexample to the claim as stated.  Reproducing the
per-record update calls the uniform random source three times, not
four: run on a concrete district from cursor 0, the update leaves the
cursor at 3. -/
theorem district_update_draw_count_is_not_four :
    (districtSimUpdate districtC7 ⟨fun _ => 0, 0⟩).2.cursor = 3 ∧
    (districtSimUpdate districtC7 ⟨fun _ => 0, 0⟩).2.cursor ≠ 4 := ⟨rfl, by decide⟩

/-- C10.  The per-tick status transition maps
`{normal, warning, critical}` into itself, whatever the draw. -/
theorem district_status_set_closed (status : String) (rand : ℚ)
    (h : status ∈ (["normal", "warning", "critical"] : List String)) :
    nextStatus status rand ∈ (["normal", "warning", "critical"] : List String) := by
  simp only [List.mem_cons, List.not_mem_nil, or_false] at h
  rcases h with h | h | h <;> subst h <;> unfold nextStatus <;>
    split_ifs <;> simp

/-- C10, witness: the transition applied to `"critical"`. -/
theorem district_status_set_closed_witness :
    ("critical" ∈ (["normal", "warning", "critical"] : List String)) ∧
    nextStatus "critical" 0 ∈ (["normal", "warning", "critical"] : List String) :=
  ⟨by decide, district_status_set_closed "critical" 0 (by decide)⟩

/-- C2 (amended).  One tick of `simulateRealTimeData`: in every
execution in which all `updateDistrict` writes resolve, every district
row receives a bounded random increment or decrement clamped to
`[0, total_hotspots]` resp. `[0, 100]`; if moreover `saveMetrics`
resolves, the tick ends with exactly one `data_update` message, built
from the updated store, to each client whose readyState is OPEN, while a
rejected `saveMetrics` skips the broadcast; and a rejected
`updateDistrict` write aborts the tick: nothing is sent and no metrics
row is saved. -/
theorem simulate_tick_success_and_failure_modes (w : WifiData) (clients : List Client)
    (dbw : DbWriteOutcomes) (st : RandState)
    (hdraws : ∀ n, 0 ≤ st.draws n ∧ st.draws n < 1)
    (htotals : ∀ d ∈ w.districts, 0 ≤ d.total_hotspots) :
    ((∀ k, dbw.updateDistrictFails k = false) →
      List.Forall₂ (fun d d' => DistrictStep d d' ∧ DistrictInRange d')
        w.districts ((simulateRealTimeData w clients dbw st).1.1).districts ∧
      (dbw.saveMetricsFails = false →
        (simulateRealTimeData w clients dbw st).1.2.2 =
          broadcastUpdate ((simulateRealTimeData w clients dbw st).1.1) clients ∧
        (∀ c ∈ clients, c.readyState = ReadyState.OPEN →
          (c, dataUpdateMessage ((simulateRealTimeData w clients dbw st).1.1)) ∈
            (simulateRealTimeData w clients dbw st).1.2.2)) ∧
      (dbw.saveMetricsFails = true →
        (simulateRealTimeData w clients dbw st).1.2.2 = [])) ∧
    (∀ k, k < w.districts.length → dbw.updateDistrictFails k = true →
      (simulateRealTimeData w clients dbw st).1.2.2 = [] ∧
      (simulateRealTimeData w clients dbw st).1.2.1 = none) := by
  constructor
  · intro hall
    have hloop := districtsSimUpdateWithDb_all_ok dbw.updateDistrictFails hall
      w.districts 0 ⟨st.draws, st.cursor + 3⟩
    refine ⟨?_, ?_, ?_⟩
    · have hds : ((simulateRealTimeData w clients dbw st).1.1).districts =
          (districtsSimUpdate w.districts ⟨st.draws, st.cursor + 3⟩).1 := by
        by_cases hsave : dbw.saveMetricsFails = true <;>
          simp [simulateRealTimeData_apply, hloop, hsave,
            updateMetricsFromDistricts_districts]
      rw [hds]
      exact districtsSimUpdate_spec w.districts ⟨st.draws, st.cursor + 3⟩ hdraws htotals
    · intro hsave
      have hsends : (simulateRealTimeData w clients dbw st).1.2.2 =
          broadcastUpdate ((simulateRealTimeData w clients dbw st).1.1) clients := by
        simp [simulateRealTimeData_apply, hloop, hsave]
      refine ⟨hsends, ?_⟩
      intro c hc hopen
      rw [hsends]
      unfold broadcastUpdate
      exact List.mem_map.mpr
        ⟨c, List.mem_filter.mpr ⟨hc, decide_eq_true hopen⟩, rfl⟩
    · intro hsave
      simp [simulateRealTimeData_apply, hloop, hsave]
  · intro k hk hfail
    by_cases hflag : (districtsSimUpdateWithDb dbw.updateDistrictFails 0 w.districts
        ⟨st.draws, st.cursor + 3⟩).1.2 = true
    · exfalso
      have hok := districtsSimUpdateWithDb_completed dbw.updateDistrictFails
        w.districts 0 ⟨st.draws, st.cursor + 3⟩ hflag k hk
      rw [Nat.zero_add, hfail] at hok
      exact Bool.noConfusion hok
    · simp only [Bool.not_eq_true] at hflag
      constructor <;> simp [simulateRealTimeData_apply, hflag]

/-- A concrete store for the C2 witness. -/
def wC2 : WifiData := ⟨12500, 9800, 62, 118, [⟨1, "North District", 1200, 800, 64, "normal"⟩]⟩

/-- Concrete clients for the C2 witness: one open, one closed. -/
def clientsC2 : List Client := [⟨1, ReadyState.OPEN⟩, ⟨2, ReadyState.CLOSED⟩]

/-- A concrete draw stream for the C2 witness. -/
def stC2 : RandState := ⟨fun _ => 0, 0⟩

/-- Database-write outcomes in which every write resolves. -/
def dbwOk : DbWriteOutcomes := ⟨fun _ => false, false⟩

/-- C2, witness: the tick theorem applied to a concrete store, client
list, draw stream and an all-writes-succeed execution. -/
theorem simulate_tick_success_and_failure_modes_witness :
    (∀ n, 0 ≤ stC2.draws n ∧ stC2.draws n < 1) ∧
    (∀ d ∈ wC2.districts, 0 ≤ d.total_hotspots) ∧
    (∀ k, dbwOk.updateDistrictFails k = false) ∧
    dbwOk.saveMetricsFails = false ∧
    (List.Forall₂ (fun d d' => DistrictStep d d' ∧ DistrictInRange d')
      wC2.districts ((simulateRealTimeData wC2 clientsC2 dbwOk stC2).1.1).districts ∧
    (simulateRealTimeData wC2 clientsC2 dbwOk stC2).1.2.2 =
      broadcastUpdate ((simulateRealTimeData wC2 clientsC2 dbwOk stC2).1.1) clientsC2 ∧
    (∀ c ∈ clientsC2, c.readyState = ReadyState.OPEN →
      (c, dataUpdateMessage ((simulateRealTimeData wC2 clientsC2 dbwOk stC2).1.1)) ∈
        (simulateRealTimeData wC2 clientsC2 dbwOk stC2).1.2.2)) :=
  ⟨fun _ => ⟨le_refl 0, zero_lt_one⟩, by decide, fun _ => rfl, rfl,
   (by
    have h := (simulate_tick_success_and_failure_modes wC2 clientsC2 dbwOk stC2
      (fun _ => ⟨le_refl 0, zero_lt_one⟩) (by decide)).1 (fun _ => rfl)
    exact ⟨h.1, (h.2.1 rfl).1, (h.2.1 rfl).2⟩)⟩

/-- A store with two district rows for the C2 counterexample. -/
def wCx : WifiData :=
  ⟨12500, 9800, 62, 118,
   [⟨1, "North District", 1200, 800, 64, "normal"⟩,
    ⟨2, "South District", 900, 500, 55, "warning"⟩]⟩

/-- One open client for the C2 counterexample. -/
def clientsCx : List Client := [⟨1, ReadyState.OPEN⟩]

/-- Database-write outcomes in which the first `updateDistrict` write of
the tick rejects. -/
def dbwCx : DbWriteOutcomes := ⟨fun k => k == 0, false⟩

/-- A concrete draw stream for the C2 counterexample. -/
def stCx : RandState := ⟨fun _ => 0, 0⟩

/-- C2, counterexample to the claim as stated: in the tick execution in
which the first `updateDistrict` write rejects, an open client is
connected and yet nothing is broadcast, the district rows keep their
old values (so no row received its increment), and no metrics row is
saved — the `catch` block only logs. -/
theorem simulate_tick_db_failure_skips_broadcast :
    (∃ c ∈ clientsCx, c.readyState = ReadyState.OPEN) ∧
    (simulateRealTimeData wCx clientsCx dbwCx stCx).1.2.2 = [] ∧
    (simulateRealTimeData wCx clientsCx dbwCx stCx).1.1.districts = wCx.districts ∧
    (simulateRealTimeData wCx clientsCx dbwCx stCx).1.2.1 = none :=
  ⟨⟨⟨1, ReadyState.OPEN⟩, by decide, rfl⟩, rfl, rfl, rfl⟩

theorem foldl_add_eq_sum (f : District → ℤ) :
    ∀ (ds : List District) (init : ℤ),
      ds.foldl (fun sum d => sum + f d) init = init + (ds.map f).sum := by
  intro ds
  induction ds with
  | nil => intro init; simp
  | cons d ds ih =>
    intro init
    simp only [List.foldl_cons, List.map_cons, List.sum_cons, ih]
    ring

theorem updateMetricsFromDistricts_utilization (w : WifiData) :
    (updateMetricsFromDistricts w).utilization =
      (if 0 < sumTotalHotspots w.districts then
        jsRound (((sumActiveHotspots w.districts : ℚ) /
          (sumTotalHotspots w.districts : ℚ)) * 100)
      else 0) := rfl

/-- C9.  `updateMetricsFromDistricts` is total and its division guarded:
the reduce-computed totals are the sums of the rows; whenever the total
sums to 0 (the empty list included) the aggregate utilization is 0,
otherwise it is `round(100 * activeSum / totalSum)`; and
`criticalDistricts` counts exactly the rows with status `'critical'`. -/
theorem update_metrics_division_guarded (w : WifiData)
    (h : ∀ d ∈ w.districts, 0 ≤ d.total_hotspots) :
    (sumTotalHotspots w.districts =
        (w.districts.map (fun d => d.total_hotspots)).sum ∧
     sumActiveHotspots w.districts =
        (w.districts.map (fun d => d.active_hotspots)).sum) ∧
    (sumTotalHotspots w.districts = 0 →
      (updateMetricsFromDistricts w).utilization = 0) ∧
    (sumTotalHotspots w.districts ≠ 0 →
      (updateMetricsFromDistricts w).utilization =
        jsRound (100 * (sumActiveHotspots w.districts : ℚ) /
          (sumTotalHotspots w.districts : ℚ))) ∧
    (updateMetricsFromDistricts w).criticalDistricts =
      ((w.districts.filter (fun d => d.status = "critical")).length : ℤ) := by
  have hnonneg : 0 ≤ sumTotalHotspots w.districts := by
    rw [sumTotalHotspots, foldl_add_eq_sum, zero_add]
    apply List.sum_nonneg
    intro x hx
    obtain ⟨d, hd, rfl⟩ := List.mem_map.mp hx
    exact h d hd
  refine ⟨⟨?_, ?_⟩, ?_, ?_, rfl⟩
  · rw [sumTotalHotspots, foldl_add_eq_sum, zero_add]
  · rw [sumActiveHotspots, foldl_add_eq_sum, zero_add]
  · intro h0
    rw [updateMetricsFromDistricts_utilization, h0]
    norm_num
  · intro hne
    have hpos : 0 < sumTotalHotspots w.districts := lt_of_le_of_ne hnonneg (Ne.symm hne)
    rw [updateMetricsFromDistricts_utilization, if_pos hpos]
    exact congrArg jsRound (by ring)

/-- A concrete store for the C9 witness. -/
def wC9 : WifiData := ⟨0, 0, 0, 0, [⟨1, "North District", 10, 5, 50, "critical"⟩]⟩

/-- C9, witness: the aggregation theorem applied to a concrete store
with one critical district. -/
theorem update_metrics_division_guarded_witness :
    (∀ d ∈ wC9.districts, 0 ≤ d.total_hotspots) ∧
    ((sumTotalHotspots wC9.districts =
        (wC9.districts.map (fun d => d.total_hotspots)).sum ∧
      sumActiveHotspots wC9.districts =
        (wC9.districts.map (fun d => d.active_hotspots)).sum) ∧
    (sumTotalHotspots wC9.districts = 0 →
      (updateMetricsFromDistricts wC9).utilization = 0) ∧
    (sumTotalHotspots wC9.districts ≠ 0 →
      (updateMetricsFromDistricts wC9).utilization =
        jsRound (100 * (sumActiveHotspots wC9.districts : ℚ) /
          (sumTotalHotspots wC9.districts : ℚ))) ∧
    (updateMetricsFromDistricts wC9).criticalDistricts =
      ((wC9.districts.filter (fun d => d.status = "critical")).length : ℤ)) :=
  ⟨by decide, update_metrics_division_guarded wC9 (by decide)⟩

/-- An existing user row for exercising the registration route. -/
def userAlice : UserRow :=
  ⟨1, "Alice One", "alice@example.com", "alice", "user", bcryptHash "alicepw", true⟩

/-- Database state with `alice` already registered. -/
def dbC3 : DbState := ⟨[userAlice], []⟩

/-- A registration request that reuses the username `alice`. -/
def reqC3 : RegisterRequest :=
  { fullname := some "Alice Two", email := some "alice2@example.com",
    username := some "alice", role := some "user", password := some "pw12345",
    userType := "user" }

/-- A registration request with a fresh username. -/
def reqC3fresh : RegisterRequest :=
  { fullname := some "Bob New", email := some "bobnew@example.com",
    username := some "bobnew", role := some "user", password := some "pw12345",
    userType := "user" }

/-- C3, evaluation at the failing input.  Because the `Database` class
defines no `getUserByUsername`/`getUserByEmail`, the registration route
answers 500 — for a duplicate username (where the claim and the
route's own dead branch say 409) and for a fresh one alike — and
inserts no account row. -/
theorem register_answers_500_not_409 :
    (∃ r ∈ dbC3.users, r.username = "alice") ∧
    registerHandler dbC3 reqC3 = ⟨500, some "Registration failed", dbC3⟩ ∧
    (registerHandler dbC3 reqC3).status ≠ 409 ∧
    (registerHandler dbC3 reqC3).db.users = dbC3.users ∧
    registerHandler dbC3 reqC3fresh = ⟨500, some "Registration failed", dbC3⟩ := by
  refine ⟨⟨userAlice, by decide, by decide⟩, by decide, by decide, by decide, by decide⟩

/-- A pending-verification admin row whose password is the bcrypt hash
of `bobpw`. -/
def adminBob : AdminRow :=
  ⟨1, "Bob Admin", "bob@example.com", "bob", "admin", bcryptHash "bobpw",
   some "IT", some "AB12CD34EF56", some "REG-1", "pending_verification", false⟩

/-- Database state whose only account is the pending admin. -/
def dbC4 : DbState := ⟨[], [adminBob]⟩

/-- A login request presenting the pending admin's correct credentials. -/
def reqC4 : LoginRequest :=
  { username := some "bob", password := some "bobpw", loginType := "admin",
    ip := "10.0.0.1", loginAttempts := 0 }

/-- C4, counterexample to the claim as stated.  No account in the store
is active, so these credentials do not match an active account; the
claim then requires 401 plus a `failed_login` event, but the handler
answers 403 (pending verification) and records no event. -/
theorem pending_admin_login_answers_403_not_401 :
    (∀ a ∈ dbC4.admins, a.is_active = false) ∧ dbC4.users = [] ∧
    (loginHandler dbC4 reqC4 false).status = 403 ∧
    (loginHandler dbC4 reqC4 false).status ≠ 401 ∧
    (loginHandler dbC4 reqC4 false).events = [] := by
  refine ⟨by decide, by decide, by decide, by decide, by decide⟩

/-- C4 (amended).  The login status mapping: missing (or empty) username
or password gives 400 with no event; a database failure gives 500; and
a login attempt that `authenticateUser` rejects — no account eligible
for login carries the credentials, where eligible means active, or for
admin logins also pending verification — gives 401 and records exactly
one `failed_login` security event of severity `low` naming the
sanitised attempted username. -/
theorem login_status_mapping (st : DbState) (req : LoginRequest) (dbError : Bool) :
    (req.username.getD "" = "" ∨ req.password.getD "" = "" →
      (loginHandler st req dbError).status = 400 ∧
      (loginHandler st req dbError).events = []) ∧
    (¬(req.username.getD "" = "" ∨ req.password.getD "" = "") → dbError = true →
      (loginHandler st req dbError).status = 500) ∧
    (¬(req.username.getD "" = "" ∨ req.password.getD "" = "") → dbError = false →
      authenticateUser st (sanitizeName (req.username.getD ""))
        (req.password.getD "") req.loginType = none →
      (loginHandler st req dbError).status = 401 ∧
      (loginHandler st req dbError).events =
        [⟨"failed_login", "low", none, none, req.ip,
          "Failed login attempt for user: " ++ sanitizeName (req.username.getD "")⟩]) := by
  unfold loginHandler
  by_cases hm : req.username.getD "" = "" ∨ req.password.getD "" = ""
  · simp [hm]
  · refine ⟨fun h => absurd h hm, ?_, ?_⟩
    · intro _ hdb; subst hdb; simp [hm]
    · intro _ hdb hauth; subst hdb; simp [hm, hauth]

/-- An empty database state for the C4 witness. -/
def dbC4w : DbState := ⟨[], []⟩

/-- A login request for an unknown username. -/
def reqC4w : LoginRequest :=
  { username := some "ghost", password := some "pw", loginType := "user",
    ip := "10.0.0.2", loginAttempts := 0 }

/-- C4, witness: the mapping theorem applied to a concrete failed login. -/
theorem login_status_mapping_witness :
    ¬(reqC4w.username.getD "" = "" ∨ reqC4w.password.getD "" = "") ∧
    authenticateUser dbC4w (sanitizeName (reqC4w.username.getD ""))
      (reqC4w.password.getD "") reqC4w.loginType = none ∧
    ((loginHandler dbC4w reqC4w false).status = 401 ∧
     (loginHandler dbC4w reqC4w false).events =
       [⟨"failed_login", "low", none, none, reqC4w.ip,
         "Failed login attempt for user: " ++ sanitizeName (reqC4w.username.getD "")⟩]) :=
  ⟨by decide, by decide,
   (login_status_mapping dbC4w reqC4w false).2.2 (by decide) rfl (by decide)⟩

/-- C5.  Both account-creation operations write `bcrypt`-hashed password
values: every row `createUser` or `createAdmin` adds carries the bcrypt
hash of the supplied password, the seeded default admin stores the hash
of its password, and no hash equals a stored clear-text value. -/
theorem passwords_never_stored_plain :
    (∀ (st : DbState) (d : UserData) (ut : String) (st' : DbState) (id : ℕ),
      createUser st d ut = Except.ok (st', id) →
      (∀ r ∈ st'.users, r ∈ st.users ∨ r.password = bcryptHash d.password) ∧
      (∀ r ∈ st'.admins, r ∈ st.admins ∨ r.password = bcryptHash d.password)) ∧
    (∀ (st : DbState) (a : AdminData) (st' : DbState) (id : ℕ),
      createAdmin st a = Except.ok (st', id) →
      ∀ r ∈ st'.admins, r ∈ st.admins ∨ r.password = bcryptHash a.password) ∧
    seededAdminRow.password = bcryptHash "admin123" ∧
    (∀ p q, bcryptHash p ≠ StoredPassword.plain q) := by
  refine ⟨?_, ?_, rfl, fun p q h => StoredPassword.noConfusion h⟩
  · intro st d ut st' id h
    by_cases hadmin : ut = "admin"
    · by_cases hdup :
          st.admins.any (fun r => r.email == d.email || r.username == d.username) = true
      · simp [createUser, hadmin, hdup] at h
      · simp [createUser, hadmin, hdup] at h
        obtain ⟨hst, -⟩ := h
        subst hst
        refine ⟨fun r hr => Or.inl hr, fun r hr => ?_⟩
        rcases List.mem_append.mp hr with hr | hr
        · exact Or.inl hr
        · exact Or.inr (by rw [List.mem_singleton.mp hr])
    · by_cases hdup :
          st.users.any (fun r => r.email == d.email || r.username == d.username) = true
      · simp [createUser, hadmin, hdup] at h
      · simp [createUser, hadmin, hdup] at h
        obtain ⟨hst, -⟩ := h
        subst hst
        refine ⟨fun r hr => ?_, fun r hr => Or.inl hr⟩
        rcases List.mem_append.mp hr with hr | hr
        · exact Or.inl hr
        · exact Or.inr (by rw [List.mem_singleton.mp hr])
  · intro st a st' id h
    by_cases hdup : st.admins.any (fun r =>
        r.email == a.email || r.username == a.username || r.gov_id == some a.govId) = true
    · simp [createAdmin, hdup] at h
    · simp [createAdmin, hdup] at h
      obtain ⟨hst, -⟩ := h
      subst hst
      intro r hr
      rcases List.mem_append.mp hr with hr | hr
      · exact Or.inl hr
      · exact Or.inr (by rw [List.mem_singleton.mp hr])

/-- An empty database state for the C5 witness. -/
def dbC5 : DbState := ⟨[], []⟩

/-- The user data of the C5 witness. -/
def dataC5 : UserData := ⟨"Carol User", "carol@example.com", "carol", "user", "carolpw"⟩

/-- The database state after the C5 witness insertion. -/
def dbC5' : DbState :=
  ⟨[⟨1, "Carol User", "carol@example.com", "carol", "user", bcryptHash "carolpw", true⟩], []⟩

/-- C5, witness: a concrete `createUser` run stores the hash. -/
theorem passwords_never_stored_plain_witness :
    createUser dbC5 dataC5 "user" = Except.ok (dbC5', 1) ∧
    (∀ r ∈ dbC5'.users, r ∈ dbC5.users ∨ r.password = bcryptHash dataC5.password) :=
  ⟨rfl, (passwords_never_stored_plain.1 dbC5 dataC5 "user" dbC5' 1 rfl).1⟩

theorem applyUserUpdates_id (u : AccountUpdates) (r : UserRow) :
    (applyUserUpdates u r).id = r.id := rfl

theorem applyAdminUpdates_id (u : AccountUpdates) (r : AdminRow) :
    (applyAdminUpdates u r).id = r.id := rfl

/-- C8 (amended).  `updateUser`/`updateAdmin` rewrite account rows in
place — the row set (by id) of the table is unchanged, so a
soft-deactivation (`is_active := false`) keeps the row — but the
database layer also has `deleteUser`, which removes the matching
account row from the users (or admins) table outright. -/
theorem account_rows_updated_in_place_but_deletable :
    (∀ (st : DbState) (userId : ℕ) (u : AccountUpdates),
      (updateUser st userId u "user").1.users.map (fun r => r.id) =
        st.users.map (fun r => r.id) ∧
      (updateUser st userId u "user").1.admins = st.admins) ∧
    (∀ (st : DbState) (userId : ℕ) (u : AccountUpdates),
      (updateAdmin st userId u).1.admins.map (fun r => r.id) =
        st.admins.map (fun r => r.id) ∧
      (updateAdmin st userId u).1.users = st.users) ∧
    (∀ (st : DbState) (userId : ℕ),
      (deleteUser st userId "user").1.users =
        st.users.filter (fun r => !(r.id == userId)) ∧
      (deleteUser st userId "user").1.admins = st.admins) ∧
    (∀ (st : DbState) (userId : ℕ),
      (deleteUser st userId "admin").1.admins =
        st.admins.filter (fun r => !(r.id == userId)) ∧
      (deleteUser st userId "admin").1.users = st.users) := by
  refine ⟨?_, ?_, fun st userId => ⟨rfl, rfl⟩, fun st userId => ⟨rfl, rfl⟩⟩
  · intro st userId u
    refine ⟨?_, rfl⟩
    show (st.users.map (fun r => if r.id = userId then applyUserUpdates u r else r)).map
        (fun r => r.id) = st.users.map (fun r => r.id)
    rw [List.map_map]
    apply List.map_congr_left
    intro r _
    simp only [Function.comp_apply]
    split <;> rfl
  · intro st userId u
    refine ⟨?_, rfl⟩
    show (st.admins.map (fun r => if r.id = userId then applyAdminUpdates u r else r)).map
        (fun r => r.id) = st.admins.map (fun r => r.id)
    rw [List.map_map]
    apply List.map_congr_left
    intro r _
    simp only [Function.comp_apply]
    split <;> rfl

/-- The user row removed in the C8 counterexample. -/
def userDel : UserRow :=
  ⟨1, "Dave User", "dave@example.com", "dave", "user", bcryptHash "davepw", true⟩

/-- Database state holding only the row about to be deleted. -/
def dbC8 : DbState := ⟨[userDel], []⟩

/-- C8, counterexample to the claim as stated: `deleteUser` is an
operation of the system that removes an account row from the users
table — after it runs, the row is gone and `changes` is 1. -/
theorem delete_user_removes_account_row :
    dbC8.users ≠ [] ∧
    (deleteUser dbC8 1 "user").1.users = [] ∧
    (deleteUser dbC8 1 "user").2 = 1 := by
  refine ⟨by decide, by decide, by decide⟩

/-- C6.  Every message the server sends over the WebSocket channel is a
JSON object with exactly the two fields `type` and `data`; the `type` is
`initial_data` exactly at the connection handler (which sends exactly
one message, immediately) and `data_update` at the timer broadcast and
at the reply to a client `request_update`; the message handler sends
nothing for any other incoming message.  A tick's sends are either
empty (a tick aborted by a database write failure sends nothing) or the
full open-client broadcast, and every message a tick sends is the
`data_update` envelope built from the updated store. -/
theorem ws_messages_are_type_data_envelopes :
    (∀ site : SendSite, ∃ d : Json,
      sentMessage site = Json.obj [("type", Json.str (messageTypeOf site)), ("data", d)]) ∧
    (∀ site : SendSite,
      messageTypeOf site = "initial_data" ∨ messageTypeOf site = "data_update") ∧
    (∀ site : SendSite, (messageTypeOf site = "initial_data" ↔
      ∃ w hotspots, site = SendSite.onConnection w hotspots)) ∧
    (∀ (w : WifiData) (st : RandState),
      (wsConnectionSends w st).1 =
        [sentMessage (SendSite.onConnection w (generateSampleHotspots st).1)]) ∧
    (∀ (w : WifiData) (incoming : Option Json),
      wsMessageHandlerSends w incoming = [] ∨
      wsMessageHandlerSends w incoming = [sentMessage (SendSite.requestUpdateReply w)]) ∧
    (∀ (w : WifiData) (clients : List Client) (dbw : DbWriteOutcomes) (st : RandState),
      ((simulateRealTimeData w clients dbw st).1.2.2 = [] ∨
       (simulateRealTimeData w clients dbw st).1.2.2 =
         broadcastUpdate ((simulateRealTimeData w clients dbw st).1.1) clients) ∧
      ((simulateRealTimeData w clients dbw st).1.2.2).map (fun p => p.2) =
        List.replicate ((simulateRealTimeData w clients dbw st).1.2.2).length
          (sentMessage (SendSite.broadcast ((simulateRealTimeData w clients dbw st).1.1)))) := by
  refine ⟨?_, ?_, ?_, fun w st => rfl, ?_, ?_⟩
  · intro site
    cases site <;> exact ⟨_, rfl⟩
  · intro site
    cases site <;> simp [messageTypeOf]
  · intro site
    cases site with
    | onConnection w hotspots =>
      exact ⟨fun _ => ⟨w, hotspots, rfl⟩, fun _ => rfl⟩
    | requestUpdateReply w =>
      simp [messageTypeOf]
    | broadcast w =>
      simp [messageTypeOf]
  · intro w incoming
    rcases incoming with - | j
    · exact Or.inl rfl
    · cases j with
      | obj fields =>
        rcases hlook : lookupField fields "type" with - | v
        · exact Or.inl (by simp [wsMessageHandlerSends, hlook])
        · cases v
          case str t =>
            by_cases ht : t = "request_update"
            · exact Or.inr (by simp [wsMessageHandlerSends, hlook, ht, sentMessage])
            · exact Or.inl (by simp [wsMessageHandlerSends, hlook, ht])
          all_goals exact Or.inl (by simp [wsMessageHandlerSends, hlook])
      | str s => exact Or.inl rfl
      | num q => exact Or.inl rfl
      | bool b => exact Or.inl rfl
      | null => exact Or.inl rfl
      | arr xs => exact Or.inl rfl
  · intro w clients dbw st
    by_cases hflag : (districtsSimUpdateWithDb dbw.updateDistrictFails 0 w.districts
        ⟨st.draws, st.cursor + 3⟩).1.2 = true
    · by_cases hsave : dbw.saveMetricsFails = true
      · constructor
        · exact Or.inl (by simp [simulateRealTimeData_apply, hflag, hsave])
        · simp [simulateRealTimeData_apply, hflag, hsave]
      · have hsends : (simulateRealTimeData w clients dbw st).1.2.2 =
            broadcastUpdate ((simulateRealTimeData w clients dbw st).1.1) clients := by
          simp [simulateRealTimeData_apply, hflag, hsave]
        refine ⟨Or.inr hsends, ?_⟩
        rw [hsends]
        unfold broadcastUpdate
        rw [List.map_map, List.length_map]
        exact List.map_const' _ _
    · simp only [Bool.not_eq_true] at hflag
      constructor
      · exact Or.inl (by simp [simulateRealTimeData_apply, hflag])
      · simp [simulateRealTimeData_apply, hflag]

end WifiMonitor
